import Mathlib

/-!
Verification of the teacher-dashboard assignment and course stores.

The Pinia stores (`class.store`, `course.store`), the auth view they read,
and the course form validation are embedded as pure Lean functions over
explicit state records.  Mutable refs become record fields, each async
action becomes a state-passing function, and the `try/catch/finally`
structure is modelled by an explicit `fault : Option String` parameter
standing for an exception thrown at the simulated API call (the only
throwing point): when `fault = some m` the catch branch runs (sets the
error message, returns the failure value) and the `finally` clears the
loading flag, exactly as in the source.
-/

namespace TeacherDashboard

/-- `DifficultyRating` from `interfaces/Course.ts`. -/
inductive DifficultyRating : Type
  | easy
  | medium
  | hard
  | advanced
deriving DecidableEq, Repr

/-- `Course` from `interfaces/Course.ts`. -/
structure Course : Type where
  id : Nat
  title : String
  description : String
  date : String
  total_marks : Nat
  difficulty_rating : DifficultyRating
  teacher_id : Nat
deriving DecidableEq, Repr

/-- `CourseRequest` from `interfaces/Course.ts` (create/update payload). -/
structure CourseRequest : Type where
  title : String
  description : String
  date : String
  total_marks : Nat
  difficulty_rating : DifficultyRating
deriving DecidableEq, Repr

/-- `UserRole` from `interfaces/Auth.ts`. -/
inductive UserRole : Type
  | teacher
  | student
deriving DecidableEq, Repr

/-- `User` from `interfaces/Auth.ts`. -/
structure User : Type where
  id : Nat
  email : String
  name : String
  role : UserRole
deriving DecidableEq, Repr

/-- `ClassWithRelations` from `interfaces/Class.ts`; the optional
`students` / `courses` arrays are `Option` fields (`none` = the property
is absent, which JavaScript treats as falsy). -/
structure ClassWithRelations : Type where
  id : Nat
  name : String
  section_number : String
  teacher_id : Nat
  students : Option (List User)
  courses : Option (List Course)
deriving DecidableEq, Repr

/-- `ClassCourseOperation` from `interfaces/Class.ts`. -/
structure ClassCourseOperation : Type where
  class_id : Nat
  course_id : Nat
deriving DecidableEq, Repr

/-- The slice of the auth store the class/course stores read:
`authStore.user` and `authStore.isAuthenticated`. -/
structure AuthView : Type where
  user : Option User
  isAuthenticated : Bool
deriving DecidableEq, Repr

/-- `authStore.isTeacher` getter: `user.value?.role === 'teacher'`. -/
def AuthView.isTeacher (a : AuthView) : Bool :=
  match a.user with
  | some u =>
    match u.role with
    | UserRole.teacher => true
    | UserRole.student => false
  | none => false

/-- `authStore.user?.id`: the acting user's id, `none` when no user. -/
def AuthView.userId (a : AuthView) : Option Nat :=
  a.user.map (fun u => u.id)

/-- JavaScript strict equality `x === o` of a number against a possibly
undefined number (`undefined` compares unequal to every number). -/
def eqSome (x : Nat) (o : Option Nat) : Bool :=
  match o with
  | some y => x == y
  | none => false

/-- In-place mutation of the first array element matching `p`
(`array.find(p)` followed by mutating the found object). -/
def updateFirst (p : α → Bool) (f : α → α) : List α → List α
  | [] => []
  | x :: xs => if p x then f x :: xs else x :: updateFirst p f xs

/-- `array.splice(index, 1)` where `index = array.findIndex(p)`:
removes the first element matching `p`. -/
def removeFirst (p : α → Bool) : List α → List α
  | [] => []
  | x :: xs => if p x then xs else x :: removeFirst p xs

/-! ## Class store (`stores/class.store.ts`) -/

/-- `mockStudents` fixture of the class store. -/
def mockStudents : List User :=
  [ { id := 4, email := "student1@example.com", name := "Emily Parker", role := UserRole.student },
    { id := 5, email := "student2@example.com", name := "Michael Brown", role := UserRole.student },
    { id := 6, email := "student3@example.com", name := "Sophia Wilson", role := UserRole.student },
    { id := 7, email := "student4@example.com", name := "Daniel Lee", role := UserRole.student },
    { id := 8, email := "student5@example.com", name := "Olivia Martinez", role := UserRole.student },
    { id := 9, email := "student6@example.com", name := "James Taylor", role := UserRole.student } ]

/-- Entry 0 of the class store's `mockCourses` fixture. -/
def classMockCourse1 : Course :=
  { id := 1, title := "Introduction to Mathematics",
    description := "Basic mathematical concepts and operations",
    date := "2025-04-15", total_marks := 100,
    difficulty_rating := DifficultyRating.easy, teacher_id := 1 }

/-- Entry 1 of the class store's `mockCourses` fixture. -/
def classMockCourse2 : Course :=
  { id := 2, title := "Advanced Physics",
    description := "Complex physical principles and theories",
    date := "2025-05-20", total_marks := 150,
    difficulty_rating := DifficultyRating.hard, teacher_id := 1 }

/-- Entry 2 of the class store's `mockCourses` fixture. -/
def classMockCourse3 : Course :=
  { id := 3, title := "English Literature",
    description := "Classic and contemporary literature analysis",
    date := "2025-04-10", total_marks := 100,
    difficulty_rating := DifficultyRating.medium, teacher_id := 3 }

/-- Entry 3 of the class store's `mockCourses` fixture. -/
def classMockCourse4 : Course :=
  { id := 4, title := "Computer Science Fundamentals",
    description := "Introduction to programming concepts",
    date := "2025-06-05", total_marks := 120,
    difficulty_rating := DifficultyRating.medium, teacher_id := 3 }

/-- `mockCourses` fixture of the class store (never mutated by the class
store's own actions). -/
def classStoreMockCourses : List Course :=
  [classMockCourse1, classMockCourse2, classMockCourse3, classMockCourse4]

/-- Entry 0 of `mockClasses`. -/
def mockClass1 : ClassWithRelations :=
  { id := 1, name := "Mathematics 101", section_number := "A", teacher_id := 1,
    students := some [mockStudents.get ⟨0, by decide⟩, mockStudents.get ⟨1, by decide⟩,
                      mockStudents.get ⟨2, by decide⟩],
    courses := some [classMockCourse1] }

/-- Entry 1 of `mockClasses`. -/
def mockClass2 : ClassWithRelations :=
  { id := 2, name := "Physics 201", section_number := "B", teacher_id := 1,
    students := some [mockStudents.get ⟨1, by decide⟩, mockStudents.get ⟨3, by decide⟩,
                      mockStudents.get ⟨4, by decide⟩],
    courses := some [classMockCourse2] }

/-- Entry 2 of `mockClasses`. -/
def mockClass3 : ClassWithRelations :=
  { id := 3, name := "Literature 101", section_number := "C", teacher_id := 3,
    students := some [mockStudents.get ⟨0, by decide⟩, mockStudents.get ⟨2, by decide⟩,
                      mockStudents.get ⟨5, by decide⟩],
    courses := some [classMockCourse3] }

/-- The initial `mockClasses` fixture. -/
def initialMockClasses : List ClassWithRelations :=
  [mockClass1, mockClass2, mockClass3]

/-- State of the class store: the mutable module-level `mockClasses`
array plus the refs `classes`, `currentClass`, `isLoading`, `error`.
(`mockCourses` of this store is the constant `classStoreMockCourses`;
no class store action ever writes to it.) -/
structure ClassStoreState : Type where
  mockClasses : List ClassWithRelations
  classes : List ClassWithRelations
  currentClass : Option ClassWithRelations
  isLoading : Bool
  error : Option String
deriving DecidableEq, Repr

/-- Class store state at module initialisation. -/
def initialClassStoreState : ClassStoreState :=
  { mockClasses := initialMockClasses, classes := [], currentClass := none,
    isLoading := false, error := none }

/-- `teacherClasses` getter:
`classes.value.filter(c => c.teacher_id === authStore.user?.id)`,
`[]` when there is no user. -/
def teacherClasses (auth : AuthView) (s : ClassStoreState) : List ClassWithRelations :=
  match auth.user with
  | none => []
  | some u => s.classes.filter (fun c => c.teacher_id == u.id)

/-- `fetchClasses` action.  The `JSON.parse(JSON.stringify(...))` deep
copy is the identity on values.  A student's classes are those whose
(possibly absent) student list contains the user's id. -/
def fetchClasses (auth : AuthView) (fault : Option String) (s : ClassStoreState) :
    ClassStoreState :=
  if !auth.isAuthenticated then s
  else
    let s := { s with isLoading := true, error := none }
    match fault with
    | some m => { s with error := some m, isLoading := false }
    | none =>
      if auth.isTeacher then
        { s with
          classes := s.mockClasses.filter (fun c => eqSome c.teacher_id auth.userId),
          isLoading := false }
      else
        { s with
          classes := s.mockClasses.filter
            (fun c => (c.students.getD []).any (fun st => eqSome st.id auth.userId)),
          isLoading := false }

/-- `fetchClassById` action. -/
def fetchClassById (classId : Nat) (fault : Option String) (s : ClassStoreState) :
    ClassStoreState :=
  let s := { s with isLoading := true, error := none }
  match fault with
  | some m => { s with error := some m, isLoading := false }
  | none =>
    match s.mockClasses.find? (fun c => c.id == classId) with
    | some foundClass => { s with currentClass := some foundClass, isLoading := false }
    | none => { s with error := some "Class not found", isLoading := false }

/-- `classToUpdate.courses.push(courseToAdd)`, initialising the array to
`[]` first when it is absent. -/
def pushCourse (crs : Course) (c : ClassWithRelations) : ClassWithRelations :=
  { c with courses := some ((c.courses.getD []) ++ [crs]) }

/-- `currentClass.value?.id === classId`. -/
def currentMatches (cur : Option ClassWithRelations) (classId : Nat) : Bool :=
  match cur with
  | some cc => cc.id == classId
  | none => false

/-- `addCourseToClass` action.  Returns the boolean the source returns,
with the post-state. -/
def addCourseToClass (op : ClassCourseOperation) (fault : Option String)
    (s : ClassStoreState) : Bool × ClassStoreState :=
  let s := { s with isLoading := true, error := none }
  match fault with
  | some m => (false, { s with error := some m, isLoading := false })
  | none =>
    match s.mockClasses.find? (fun c => c.id == op.class_id),
          classStoreMockCourses.find? (fun c => c.id == op.course_id) with
    | some classToUpdate, some courseToAdd =>
      if (classToUpdate.courses.getD []).any (fun c => c.id == courseToAdd.id) then
        (false, { s with error := some "Course is already assigned to this class",
                         isLoading := false })
      else
        let newMock := updateFirst (fun c => c.id == op.class_id)
          (pushCourse courseToAdd) s.mockClasses
        let updated := pushCourse courseToAdd classToUpdate
        (true, { s with
          mockClasses := newMock,
          currentClass := if currentMatches s.currentClass op.class_id then some updated
                          else s.currentClass,
          classes := newMock,
          isLoading := false })
    | _, _ =>
      (false, { s with error := some "Class or course not found", isLoading := false })

/-- `classToUpdate.courses = classToUpdate.courses.filter(c => c.id !== courseId)`. -/
def filterOutCourse (courseId : Nat) (c : ClassWithRelations) : ClassWithRelations :=
  { c with courses := c.courses.map (fun l => l.filter (fun x => x.id != courseId)) }

/-- `removeCourseFromClass` action.  Note the source only fails when the
class is missing or its `courses` property is absent (an empty array is
truthy); it never checks that the pair being removed was present. -/
def removeCourseFromClass (op : ClassCourseOperation) (fault : Option String)
    (s : ClassStoreState) : Bool × ClassStoreState :=
  let s := { s with isLoading := true, error := none }
  match fault with
  | some m => (false, { s with error := some m, isLoading := false })
  | none =>
    match s.mockClasses.find? (fun c => c.id == op.class_id) with
    | none =>
      (false, { s with error := some "Class not found or has no courses", isLoading := false })
    | some classToUpdate =>
      match classToUpdate.courses with
      | none =>
        (false, { s with error := some "Class not found or has no courses", isLoading := false })
      | some _ =>
        let newMock := updateFirst (fun c => c.id == op.class_id)
          (filterOutCourse op.course_id) s.mockClasses
        let updated := filterOutCourse op.course_id classToUpdate
        (true, { s with
          mockClasses := newMock,
          currentClass := if currentMatches s.currentClass op.class_id then some updated
                          else s.currentClass,
          classes := newMock,
          isLoading := false })

/-! ## Course store (`stores/course.store.ts`) -/

/-- Entry 4 of the course store's `mockCourses` fixture (entries 0..3
coincide with the class store's fixture). -/
def courseMockCourse5 : Course :=
  { id := 5, title := "Biology Basics",
    description := "Introduction to biological systems and processes",
    date := "2025-04-22", total_marks := 100,
    difficulty_rating := DifficultyRating.easy, teacher_id := 1 }

/-- Entry 5 of the course store's `mockCourses` fixture. -/
def courseMockCourse6 : Course :=
  { id := 6, title := "Chemistry 101",
    description := "Fundamental chemistry principles and experiments",
    date := "2025-05-10", total_marks := 120,
    difficulty_rating := DifficultyRating.medium, teacher_id := 1 }

/-- The course store's initial `mockCourses` fixture (this array is
mutated by create/update/delete, so it lives in the state). -/
def initialCourseMockCourses : List Course :=
  [classMockCourse1, classMockCourse2, classMockCourse3, classMockCourse4,
   courseMockCourse5, courseMockCourse6]

/-- State of the course store: the mutable module-level `mockCourses`
array plus the refs `courses`, `filteredCourses`, `currentCourse`,
`isLoading`, `error`. -/
structure CourseStoreState : Type where
  mockCourses : List Course
  courses : List Course
  filteredCourses : List Course
  currentCourse : Option Course
  isLoading : Bool
  error : Option String
deriving DecidableEq, Repr

/-- Course store state at module initialisation. -/
def initialCourseStoreState : CourseStoreState :=
  { mockCourses := initialCourseMockCourses, courses := [], filteredCourses := [],
    currentCourse := none, isLoading := false, error := none }

/-- `Math.max(...mockCourses.map(c => c.id)) + 1`: the fresh id for a
created course.  The source never evaluates this on an empty collection;
on any non-empty list of ids the fold below equals the maximum. -/
def newCourseId (l : List Course) : Nat :=
  (l.map (fun c => c.id)).foldl Nat.max 0 + 1

/-- `authStore.user?.id as number` in a position where a value is needed
(under the teacher guard the user is always present). -/
def actingUserId (auth : AuthView) : Nat :=
  (auth.userId).getD 0

/-- `{...mockCourses[courseIndex], ...courseData}`: the spread overrides
every field of the request and keeps `id` and `teacher_id`. -/
def applyRequest (data : CourseRequest) (c : Course) : Course :=
  { c with
    title := data.title, description := data.description, date := data.date,
    total_marks := data.total_marks, difficulty_rating := data.difficulty_rating }

/-- `currentCourse.value?.id === courseId`. -/
def currentCourseMatches (cur : Option Course) (courseId : Nat) : Bool :=
  match cur with
  | some cc => cc.id == courseId
  | none => false

/-- `fetchCourses` action. -/
def fetchCourses (auth : AuthView) (fault : Option String) (s : CourseStoreState) :
    CourseStoreState :=
  if !auth.isAuthenticated then s
  else
    let s := { s with isLoading := true, error := none }
    match fault with
    | some m => { s with error := some m, isLoading := false }
    | none =>
      let cs :=
        if auth.isTeacher then
          s.mockCourses.filter (fun c => eqSome c.teacher_id auth.userId)
        else
          s.mockCourses.take 3
      { s with courses := cs, filteredCourses := cs, isLoading := false }

/-- `createCourse` action.  There is no validation of the payload here:
any title is accepted and the course is pushed onto `mockCourses`. -/
def createCourse (auth : AuthView) (courseData : CourseRequest) (fault : Option String)
    (s : CourseStoreState) : Option Course × CourseStoreState :=
  if !auth.isTeacher then
    (none, { s with error := some "Only teachers can create courses" })
  else
    let s := { s with isLoading := true, error := none }
    match fault with
    | some m => (none, { s with error := some m, isLoading := false })
    | none =>
      let newCourse : Course :=
        { id := newCourseId s.mockCourses, title := courseData.title,
          description := courseData.description, date := courseData.date,
          total_marks := courseData.total_marks,
          difficulty_rating := courseData.difficulty_rating,
          teacher_id := actingUserId auth }
      let newMock := s.mockCourses ++ [newCourse]
      let cs := newMock.filter (fun c => eqSome c.teacher_id auth.userId)
      (some newCourse,
        { s with mockCourses := newMock, courses := cs, filteredCourses := cs,
                 isLoading := false })

/-- `updateCourse` action.  The source locates the course with
`findIndex` and then reads/writes `mockCourses[courseIndex]`; `find?`
returns exactly the element at that index and `updateFirst` writes it. -/
def updateCourse (auth : AuthView) (courseId : Nat) (courseData : CourseRequest)
    (fault : Option String) (s : CourseStoreState) : Option Course × CourseStoreState :=
  if !auth.isTeacher then
    (none, { s with error := some "Only teachers can update courses" })
  else
    let s := { s with isLoading := true, error := none }
    match fault with
    | some m => (none, { s with error := some m, isLoading := false })
    | none =>
      match s.mockCourses.find? (fun c => c.id == courseId) with
      | none => (none, { s with error := some "Course not found", isLoading := false })
      | some found =>
        if !(eqSome found.teacher_id auth.userId) then
          (none, { s with error := some "You can only update your own courses",
                          isLoading := false })
        else
          let updatedCourse := applyRequest courseData found
          let newMock := updateFirst (fun c => c.id == courseId)
            (applyRequest courseData) s.mockCourses
          let cs := newMock.filter (fun c => eqSome c.teacher_id auth.userId)
          (some updatedCourse,
            { s with
              mockCourses := newMock, courses := cs, filteredCourses := cs,
              currentCourse := if currentCourseMatches s.currentCourse courseId
                               then some updatedCourse else s.currentCourse,
              isLoading := false })

/-- `deleteCourse` action. -/
def deleteCourse (auth : AuthView) (courseId : Nat) (fault : Option String)
    (s : CourseStoreState) : Bool × CourseStoreState :=
  if !auth.isTeacher then
    (false, { s with error := some "Only teachers can delete courses" })
  else
    let s := { s with isLoading := true, error := none }
    match fault with
    | some m => (false, { s with error := some m, isLoading := false })
    | none =>
      match s.mockCourses.find? (fun c => c.id == courseId) with
      | none => (false, { s with error := some "Course not found", isLoading := false })
      | some found =>
        if !(eqSome found.teacher_id auth.userId) then
          (false, { s with error := some "You can only delete your own courses",
                           isLoading := false })
        else
          let newMock := removeFirst (fun c => c.id == courseId) s.mockCourses
          let cs := newMock.filter (fun c => eqSome c.teacher_id auth.userId)
          (true,
            { s with
              mockCourses := newMock, courses := cs, filteredCourses := cs,
              currentCourse := if currentCourseMatches s.currentCourse courseId
                               then none else s.currentCourse,
              isLoading := false })

/-! ## Course form validation (`components/courses/CourseForm.vue`) -/

/-- The `errors` ref of the course form. -/
structure FormErrors : Type where
  title : String
  description : String
  date : String
  totalMarks : String
deriving DecidableEq, Repr

/-- `!s.trim()`: the string is blank.  Trimming removes exactly the
leading and trailing whitespace, so the trimmed string is empty iff
every character is whitespace. -/
def isBlank (s : String) : Bool := s.toList.all Char.isWhitespace

/-- `validateForm` of `CourseForm.vue`: returns the `isValid` flag and
the error record.  `!x` on a string is emptiness, `!totalMarks.value`
together with `<= 0` is `totalMarks <= 0` (over the integers). -/
def validateForm (title description date : String) (totalMarks : Int) :
    Bool × FormErrors :=
  let errs : FormErrors := { title := "", description := "", date := "", totalMarks := "" }
  let isValid := true
  let (isValid, errs) :=
    if isBlank title then (false, { errs with title := "Title is required" })
    else if title.length > 100 then
      (false, { errs with title := "Title must be less than 100 characters" })
    else (isValid, errs)
  let (isValid, errs) :=
    if isBlank description then
      (false, { errs with description := "Description is required" })
    else (isValid, errs)
  let (isValid, errs) :=
    if date == "" then (false, { errs with date := "Date is required" })
    else (isValid, errs)
  let (isValid, errs) :=
    if totalMarks ≤ 0 then
      (false, { errs with totalMarks := "Total marks must be greater than 0" })
    else if totalMarks > 1000 then
      (false, { errs with totalMarks := "Total marks must be less than 1000" })
    else (isValid, errs)
  (isValid, errs)

/-! ## Helper lemmas -/

/-- Looking up (with the same predicate) after mutating the first match
returns the image of the original lookup, provided `f` preserves `p`. -/
theorem find?_updateFirst (p : α → Bool) (f : α → α) (l : List α)
    (hf : ∀ x, p x = true → p (f x) = true) :
    (updateFirst p f l).find? p = (l.find? p).map f := by
  induction l with
  | nil => rfl
  | cons x xs ih =>
    by_cases hx : p x = true
    · rw [updateFirst, if_pos hx, List.find?_cons_of_pos _ (hf x hx),
        List.find?_cons_of_pos _ hx]
      rfl
    · rw [updateFirst, if_neg hx, List.find?_cons_of_neg _ hx,
        List.find?_cons_of_neg _ hx, ih]

/-- A pointwise property survives `updateFirst` when it holds on the list
and on the image of the (unique) element that gets rewritten. -/
theorem forall_updateFirst {P : α → Prop} (p : α → Bool) (f : α → α) (l : List α)
    (hl : ∀ x ∈ l, P x) (hf : ∀ x, l.find? p = some x → P (f x)) :
    ∀ y ∈ updateFirst p f l, P y := by
  induction l with
  | nil => intro y hy; simp [updateFirst] at hy
  | cons x xs ih =>
    intro y hy
    by_cases hx : p x = true
    · rw [updateFirst, if_pos hx] at hy
      rcases List.mem_cons.mp hy with h | h
      · exact h ▸ hf x (List.find?_cons_of_pos _ hx)
      · exact hl y (List.mem_cons_of_mem x h)
    · rw [updateFirst, if_neg hx] at hy
      rcases List.mem_cons.mp hy with h | h
      · exact h ▸ hl x (List.mem_cons_self x xs)
      · exact ih (fun z hz => hl z (List.mem_cons_of_mem x hz))
          (fun z hz => hf z (by rw [List.find?_cons_of_neg _ hx]; exact hz)) y h

/-- A found course's id is the id that was searched for. -/
theorem find?_course_id {l : List Course} {i : Nat} {crs : Course}
    (h : l.find? (fun c => c.id == i) = some crs) : crs.id = i := by
  have := List.find?_some h
  simpa using this

/-- A found class's id is the id that was searched for. -/
theorem find?_class_id {l : List ClassWithRelations} {i : Nat} {cls : ClassWithRelations}
    (h : l.find? (fun c => c.id == i) = some cls) : cls.id = i := by
  have := List.find?_some h
  simpa using this

/-! ## Claim theorems -/

/-- C1, counterexample: in the initial store state the pair
(classId 1, courseId 2) is not in the assignment relation (class 1 holds
only course 1), yet `removeCourseFromClass ⟨1, 2⟩` succeeds: it returns
`true` and sets no error, instead of failing with a `NotAssigned` error
as the claim states. -/
theorem unassign_missing_pair_succeeds_cex :
    (removeCourseFromClass ⟨1, 2⟩ none initialClassStoreState).fst = true ∧
    (removeCourseFromClass ⟨1, 2⟩ none initialClassStoreState).snd.error = none ∧
    ((initialClassStoreState.mockClasses.find? (fun c => c.id == 1)).map
      (fun c => (c.courses.getD []).any (fun x => x.id == 2))) = some false := by
  refine ⟨rfl, rfl, by decide⟩

/-- C1, amended: `removeCourseFromClass` succeeds (returns `true`, error
stays null) on every pair whose class id resolves to a class with a
`courses` array — so it fails only when the class id does not resolve or
the class has no `courses` array; on a non-assigned such pair the
success additionally leaves the class's course set contents unchanged;
and on both failure branches it returns `false` with the error
`Class not found or has no courses` (not a `NotAssigned` error), leaving
the backing relation untouched.  The state `s` carries the non-assigned
success scenario, `sD` an arbitrary resolving-class scenario, `sB` the
unresolved-class scenario, and `sC` the missing-courses-array
scenario. -/
theorem unassign_missing_pair_amended (op : ClassCourseOperation)
    (s sD sB sC : ClassStoreState) (cls clsD clsC : ClassWithRelations)
    (l lD : List Course)
    (hfind : s.mockClasses.find? (fun c => c.id == op.class_id) = some cls)
    (hcourses : cls.courses = some l)
    (habsent : l.all (fun c => c.id != op.course_id) = true)
    (hfindD : sD.mockClasses.find? (fun c => c.id == op.class_id) = some clsD)
    (hcoursesD : clsD.courses = some lD)
    (hfindB : sB.mockClasses.find? (fun c => c.id == op.class_id) = none)
    (hfindC : sC.mockClasses.find? (fun c => c.id == op.class_id) = some clsC)
    (hcoursesC : clsC.courses = none) :
    (removeCourseFromClass op none s).fst = true ∧
    (removeCourseFromClass op none s).snd.error = none ∧
    ((removeCourseFromClass op none s).snd.mockClasses.find?
      (fun c => c.id == op.class_id)).map (fun c => c.courses) = some (some l) ∧
    (removeCourseFromClass op none sD).fst = true ∧
    (removeCourseFromClass op none sD).snd.error = none ∧
    (removeCourseFromClass op none sB).fst = false ∧
    (removeCourseFromClass op none sB).snd.error =
      some "Class not found or has no courses" ∧
    (removeCourseFromClass op none sB).snd.mockClasses = sB.mockClasses ∧
    (removeCourseFromClass op none sC).fst = false ∧
    (removeCourseFromClass op none sC).snd.error =
      some "Class not found or has no courses" ∧
    (removeCourseFromClass op none sC).snd.mockClasses = sC.mockClasses := by
  have hfilter : l.filter (fun x => x.id != op.course_id) = l :=
    List.filter_eq_self.mpr (List.all_eq_true.mp habsent)
  have hpres : ∀ x : ClassWithRelations, (x.id == op.class_id) = true →
      ((filterOutCourse op.course_id x).id == op.class_id) = true := by
    intro x hx; exact hx
  refine ⟨?_, ?_, ?_, ?_, ?_, ?_, ?_, ?_, ?_, ?_, ?_⟩
  · simp only [removeCourseFromClass, hfind, hcourses]
  · simp only [removeCourseFromClass, hfind, hcourses]
  · simp only [removeCourseFromClass, hfind, hcourses]
    rw [find?_updateFirst _ _ _ hpres, hfind]
    simp [filterOutCourse, hcourses, hfilter]
  · simp only [removeCourseFromClass, hfindD, hcoursesD]
  · simp only [removeCourseFromClass, hfindD, hcoursesD]
  · simp only [removeCourseFromClass, hfindB]
  · simp only [removeCourseFromClass, hfindB]
  · simp only [removeCourseFromClass, hfindB]
  · simp only [removeCourseFromClass, hfindC, hcoursesC]
  · simp only [removeCourseFromClass, hfindC, hcoursesC]
  · simp only [removeCourseFromClass, hfindC, hcoursesC]

/-- C1 witness: the amended statement at the concrete pair (1, 2), with
the initial state for both success scenarios, an initial state with an
empty relation for the unresolved-class failure, and an initial state
whose only class lacks the `courses` array for the other failure. -/
theorem unassign_missing_pair_amended_witness :
    (removeCourseFromClass ⟨1, 2⟩ none initialClassStoreState).fst = true ∧
    (removeCourseFromClass ⟨1, 2⟩ none initialClassStoreState).snd.error = none ∧
    ((removeCourseFromClass ⟨1, 2⟩ none initialClassStoreState).snd.mockClasses.find?
      (fun c => c.id == (1 : Nat))).map (fun c => c.courses) =
      some (some [classMockCourse1]) ∧
    (removeCourseFromClass ⟨1, 2⟩ none initialClassStoreState).fst = true ∧
    (removeCourseFromClass ⟨1, 2⟩ none initialClassStoreState).snd.error = none ∧
    (removeCourseFromClass ⟨1, 2⟩ none
        { initialClassStoreState with mockClasses := [] }).fst = false ∧
    (removeCourseFromClass ⟨1, 2⟩ none
        { initialClassStoreState with mockClasses := [] }).snd.error =
      some "Class not found or has no courses" ∧
    (removeCourseFromClass ⟨1, 2⟩ none
        { initialClassStoreState with mockClasses := [] }).snd.mockClasses =
      ({ initialClassStoreState with mockClasses := [] } : ClassStoreState).mockClasses ∧
    (removeCourseFromClass ⟨1, 2⟩ none
        { initialClassStoreState with
          mockClasses := [{ mockClass1 with courses := none }] }).fst = false ∧
    (removeCourseFromClass ⟨1, 2⟩ none
        { initialClassStoreState with
          mockClasses := [{ mockClass1 with courses := none }] }).snd.error =
      some "Class not found or has no courses" ∧
    (removeCourseFromClass ⟨1, 2⟩ none
        { initialClassStoreState with
          mockClasses := [{ mockClass1 with courses := none }] }).snd.mockClasses =
      ({ initialClassStoreState with
          mockClasses := [{ mockClass1 with courses := none }] } :
        ClassStoreState).mockClasses :=
  unassign_missing_pair_amended ⟨1, 2⟩ initialClassStoreState
    initialClassStoreState
    { initialClassStoreState with mockClasses := [] }
    { initialClassStoreState with
      mockClasses := [{ mockClass1 with courses := none }] }
    mockClass1 mockClass1 { mockClass1 with courses := none }
    [classMockCourse1] [classMockCourse1]
    (by decide) (by decide) (by decide) (by decide) (by decide) (by decide)
    (by decide) (by decide)

/-- Shared helper: post-state of a successful `addCourseToClass` (both
ids resolve, pair not yet assigned): it returns `true` and rewrites the
matched class in both `mockClasses` and `classes` by appending the
course. -/
theorem add_success_spec (op : ClassCourseOperation) (s : ClassStoreState)
    (cls : ClassWithRelations) (crs : Course)
    (hc : s.mockClasses.find? (fun c => c.id == op.class_id) = some cls)
    (hr : classStoreMockCourses.find? (fun c => c.id == op.course_id) = some crs)
    (hnew : (cls.courses.getD []).any (fun c => c.id == crs.id) = false) :
    (addCourseToClass op none s).fst = true ∧
    (addCourseToClass op none s).snd.mockClasses =
      updateFirst (fun c => c.id == op.class_id) (pushCourse crs) s.mockClasses ∧
    (addCourseToClass op none s).snd.classes =
      updateFirst (fun c => c.id == op.class_id) (pushCourse crs) s.mockClasses := by
  simp only [addCourseToClass, hc, hr, hnew]
  exact ⟨rfl, rfl, rfl⟩

/-- Shared helper: `pushCourse` and `filterOutCourse` keep the class id,
so the class lookup predicate is preserved. -/
theorem pushCourse_keeps_id (crs : Course) (i : Nat) :
    ∀ x : ClassWithRelations, (x.id == i) = true → ((pushCourse crs x).id == i) = true :=
  fun _ hx => hx

/-- Shared helper: `filterOutCourse` keeps the class id, so the class
lookup predicate is preserved. -/
theorem filterOutCourse_keeps_id (courseId : Nat) (i : Nat) :
    ∀ x : ClassWithRelations,
      (x.id == i) = true → ((filterOutCourse courseId x).id == i) = true :=
  fun _ hx => hx

/-- Shared helper: post-state of `removeCourseFromClass` when the class
resolves and has a `courses` array: it returns `true` and the matched
class's course array is filtered by the course id. -/
theorem remove_spec (op : ClassCourseOperation) (s : ClassStoreState)
    (cls : ClassWithRelations) (l : List Course)
    (hfind : s.mockClasses.find? (fun c => c.id == op.class_id) = some cls)
    (hcourses : cls.courses = some l) :
    (removeCourseFromClass op none s).fst = true ∧
    ((removeCourseFromClass op none s).snd.mockClasses.find?
      (fun c => c.id == op.class_id)).map (fun c => c.courses) =
      some (some (l.filter (fun x => x.id != op.course_id))) := by
  constructor
  · simp only [removeCourseFromClass, hfind, hcourses]
  · simp only [removeCourseFromClass, hfind, hcourses]
    rw [find?_updateFirst _ _ _ (filterOutCourse_keeps_id op.course_id op.class_id), hfind]
    simp [filterOutCourse, hcourses]

/-- C2, counterexample: the claim says a successful assign returns the
updated class's course set, but `addCourseToClass` returns a boolean
success flag (`Promise<boolean>` in the source).  At the concrete
successful call `addCourseToClass ⟨1, 2⟩` the returned value is the
boolean `true`, while the updated course set (now `[course 1, course 2]`)
is only reachable through the store state. -/
theorem assign_returns_boolean_cex :
    (addCourseToClass ⟨1, 2⟩ none initialClassStoreState).fst = true ∧
    ((addCourseToClass ⟨1, 2⟩ none initialClassStoreState).snd.classes.find?
      (fun c => c.id == 1)).map (fun c => c.courses) =
      some (some [classMockCourse1, classMockCourse2]) := by
  constructor
  · rfl
  · rfl

/-- C2, amended: a successful `addCourseToClass` returns the boolean
`true` (not the course set); the updated class's course set is exposed
through the store's `classes` state, where the matched class's set is its
previous set with the found course appended. -/
theorem assign_success_returns_true_and_appends (op : ClassCourseOperation)
    (s : ClassStoreState) (cls : ClassWithRelations) (crs : Course)
    (hc : s.mockClasses.find? (fun c => c.id == op.class_id) = some cls)
    (hr : classStoreMockCourses.find? (fun c => c.id == op.course_id) = some crs)
    (hnew : (cls.courses.getD []).any (fun c => c.id == crs.id) = false) :
    (addCourseToClass op none s).fst = true ∧
    ((addCourseToClass op none s).snd.classes.find?
      (fun c => c.id == op.class_id)).map (fun c => c.courses) =
      some (some ((cls.courses.getD []) ++ [crs])) := by
  obtain ⟨h1, _, h3⟩ := add_success_spec op s cls crs hc hr hnew
  refine ⟨h1, ?_⟩
  rw [h3, find?_updateFirst _ _ _ (pushCourse_keeps_id crs op.class_id), hc]
  simp [pushCourse]

/-- C2 witness: the amended statement at the concrete pair (1, 2) in the
initial state. -/
theorem assign_success_returns_true_and_appends_witness :
    (addCourseToClass ⟨1, 2⟩ none initialClassStoreState).fst = true ∧
    ((addCourseToClass ⟨1, 2⟩ none initialClassStoreState).snd.classes.find?
      (fun c => c.id == (1 : Nat))).map (fun c => c.courses) =
      some (some ((mockClass1.courses.getD []) ++ [classMockCourse2])) :=
  assign_success_returns_true_and_appends ⟨1, 2⟩ initialClassStoreState mockClass1
    classMockCourse2 (by decide) (by decide) (by decide)

/-- C3 (confirmed): when both ids resolve and the (classId, courseId)
pair is already in the assignment relation, a second `addCourseToClass`
fails — it returns `false` with the duplicate-assignment error message —
and mutates nothing: `mockClasses`, `classes` and `currentClass` are all
unchanged, so the class's course set is unchanged. -/
theorem assign_duplicate_fails_no_mutation (op : ClassCourseOperation)
    (s : ClassStoreState) (cls : ClassWithRelations) (crs : Course)
    (hc : s.mockClasses.find? (fun c => c.id == op.class_id) = some cls)
    (hr : classStoreMockCourses.find? (fun c => c.id == op.course_id) = some crs)
    (hdup : (cls.courses.getD []).any (fun c => c.id == op.course_id) = true) :
    (addCourseToClass op none s).fst = false ∧
    (addCourseToClass op none s).snd.error =
      some "Course is already assigned to this class" ∧
    (addCourseToClass op none s).snd.mockClasses = s.mockClasses ∧
    (addCourseToClass op none s).snd.classes = s.classes ∧
    (addCourseToClass op none s).snd.currentClass = s.currentClass := by
  have hid : crs.id = op.course_id := find?_course_id hr
  rw [← hid] at hdup
  simp only [addCourseToClass, hc, hr, hdup]
  exact ⟨rfl, rfl, rfl, rfl, rfl⟩

/-- C3 witness: assigning the already-assigned pair (1, 1) in the initial
state fails without mutation. -/
theorem assign_duplicate_fails_no_mutation_witness :
    (addCourseToClass ⟨1, 1⟩ none initialClassStoreState).fst = false ∧
    (addCourseToClass ⟨1, 1⟩ none initialClassStoreState).snd.error =
      some "Course is already assigned to this class" ∧
    (addCourseToClass ⟨1, 1⟩ none initialClassStoreState).snd.mockClasses =
      initialClassStoreState.mockClasses ∧
    (addCourseToClass ⟨1, 1⟩ none initialClassStoreState).snd.classes =
      initialClassStoreState.classes ∧
    (addCourseToClass ⟨1, 1⟩ none initialClassStoreState).snd.currentClass =
      initialClassStoreState.currentClass :=
  assign_duplicate_fails_no_mutation ⟨1, 1⟩ initialClassStoreState mockClass1
    classMockCourse1 (by decide) (by decide) (by decide)

/-- C4 (confirmed): when both ids resolve and the pair is not yet
assigned, after `addCourseToClass` the class's course set (queried from
the store's `classes` state) contains `courseId` exactly once. -/
theorem assign_then_query_contains_once (op : ClassCourseOperation)
    (s : ClassStoreState) (cls : ClassWithRelations) (crs : Course)
    (hc : s.mockClasses.find? (fun c => c.id == op.class_id) = some cls)
    (hr : classStoreMockCourses.find? (fun c => c.id == op.course_id) = some crs)
    (habsent : (cls.courses.getD []).any (fun c => c.id == op.course_id) = false) :
    ((addCourseToClass op none s).snd.classes.find?
      (fun c => c.id == op.class_id)).map
      (fun c => (c.courses.getD []).countP (fun x => x.id == op.course_id)) =
      some 1 := by
  have hid : crs.id = op.course_id := find?_course_id hr
  have hnew : (cls.courses.getD []).any (fun c => c.id == crs.id) = false := by
    rw [hid]; exact habsent
  obtain ⟨_, _, h3⟩ := add_success_spec op s cls crs hc hr hnew
  rw [h3, find?_updateFirst _ _ _ (pushCourse_keeps_id crs op.class_id), hc]
  have hzero : (cls.courses.getD []).countP (fun x => x.id == op.course_id) = 0 :=
    List.countP_eq_zero.mpr (List.any_eq_false.mp habsent)
  simp [pushCourse, List.countP_append, List.countP_cons, hzero, hid]

/-- C4 witness: after assigning the fresh pair (1, 2) in the initial
state, class 1's course set holds course 2 exactly once. -/
theorem assign_then_query_contains_once_witness :
    ((addCourseToClass ⟨1, 2⟩ none initialClassStoreState).snd.classes.find?
      (fun c => c.id == (1 : Nat))).map
      (fun c => (c.courses.getD []).countP (fun x => x.id == (2 : Nat))) =
      some 1 :=
  assign_then_query_contains_once ⟨1, 2⟩ initialClassStoreState mockClass1
    classMockCourse2 (by decide) (by decide) (by decide)

/-- C5 (confirmed): for a pair not assigned in the initial state (both
ids resolving), `addCourseToClass` followed by `removeCourseFromClass`
on the same pair restores the class's course set to exactly its
pre-assign contents. -/
theorem assign_unassign_roundtrip (op : ClassCourseOperation)
    (s : ClassStoreState) (cls : ClassWithRelations) (crs : Course)
    (hc : s.mockClasses.find? (fun c => c.id == op.class_id) = some cls)
    (hr : classStoreMockCourses.find? (fun c => c.id == op.course_id) = some crs)
    (habsent : (cls.courses.getD []).any (fun c => c.id == op.course_id) = false) :
    ((removeCourseFromClass op none
        (addCourseToClass op none s).snd).snd.mockClasses.find?
      (fun c => c.id == op.class_id)).map (fun c => c.courses.getD []) =
      some (cls.courses.getD []) := by
  have hid : crs.id = op.course_id := find?_course_id hr
  have hnew : (cls.courses.getD []).any (fun c => c.id == crs.id) = false := by
    rw [hid]; exact habsent
  obtain ⟨_, h2, _⟩ := add_success_spec op s cls crs hc hr hnew
  have hfind1 : (addCourseToClass op none s).snd.mockClasses.find?
      (fun c => c.id == op.class_id) = some (pushCourse crs cls) := by
    rw [h2, find?_updateFirst _ _ _ (pushCourse_keeps_id crs op.class_id), hc]
    rfl
  obtain ⟨_, hq⟩ := remove_spec op (addCourseToClass op none s).snd
    (pushCourse crs cls) ((cls.courses.getD []) ++ [crs]) hfind1 rfl
  rw [show ((cls.courses.getD []) ++ [crs]).filter (fun x => x.id != op.course_id) =
      cls.courses.getD [] from ?_] at hq
  · have := congrArg (Option.map (fun o => Option.getD o [])) hq
    simpa using this
  · rw [List.filter_append]
    have h1 : (cls.courses.getD []).filter (fun x => x.id != op.course_id) =
        cls.courses.getD [] := by
      refine List.filter_eq_self.mpr ?_
      intro a ha
      have := List.any_eq_false.mp habsent a ha
      simpa [bne] using this
    have h2 : [crs].filter (fun x => x.id != op.course_id) = [] := by
      simp [List.filter, hid, bne]
    rw [h1, h2, List.append_nil]

/-- C5 witness: the round trip on the concrete fresh pair (1, 2) in the
initial state restores class 1's course set to `[course 1]`. -/
theorem assign_unassign_roundtrip_witness :
    ((removeCourseFromClass ⟨1, 2⟩ none
        (addCourseToClass ⟨1, 2⟩ none initialClassStoreState).snd).snd.mockClasses.find?
      (fun c => c.id == (1 : Nat))).map (fun c => c.courses.getD []) =
      some (mockClass1.courses.getD []) :=
  assign_unassign_roundtrip ⟨1, 2⟩ initialClassStoreState mockClass1
    classMockCourse2 (by decide) (by decide) (by decide)

/-- The auth store's mock teacher (`mockUsers[0]`). -/
def teacherJane : User :=
  { id := 1, email := "teacher@example.com", name := "Jane Teacher",
    role := UserRole.teacher }

/-- An authenticated session of the mock teacher. -/
def teacherAuth : AuthView :=
  { user := some teacherJane, isAuthenticated := true }

/-- C6 (confirmed): for an authenticated teacher `t`, the
`teacherClasses` getter returns exactly the loaded classes whose
owning-teacher id equals `t`, and `fetchClasses` loads exactly the mock
classes whose owning-teacher id equals `t`, without signalling an error;
in particular a teacher owning zero classes gets the empty list. -/
theorem listClassesForTeacher_exact (u : User) (auth : AuthView) (s : ClassStoreState)
    (c : ClassWithRelations)
    (hu : auth.user = some u) (hauth : auth.isAuthenticated = true)
    (hrole : u.role = UserRole.teacher) :
    (c ∈ teacherClasses auth s ↔ c ∈ s.classes ∧ c.teacher_id = u.id) ∧
    (c ∈ (fetchClasses auth none s).classes ↔
      c ∈ s.mockClasses ∧ c.teacher_id = u.id) ∧
    (fetchClasses auth none s).error = none ∧
    (s.mockClasses.all (fun x => !(x.teacher_id == u.id)) = true →
      (fetchClasses auth none s).classes = []) := by
  have ht : auth.isTeacher = true := by
    simp [AuthView.isTeacher, hu, hrole]
  refine ⟨?_, ?_, ?_, ?_⟩
  · simp [teacherClasses, hu, List.mem_filter]
  · simp [fetchClasses, hauth, ht, List.mem_filter, eqSome, AuthView.userId, hu]
  · simp [fetchClasses, hauth, ht]
  · intro hall
    simp only [fetchClasses, hauth, ht, Bool.not_true, Bool.false_eq_true, if_false,
      if_true]
    refine List.filter_eq_nil_iff.mpr ?_
    intro a ha
    have := List.all_eq_true.mp hall a ha
    simp only [AuthView.userId, hu, Option.map_some', eqSome]
    simpa using this

/-- C6 witness: the exactness statement for the mock teacher (id 1) on
the initial state and the concrete class `mockClass1`. -/
theorem listClassesForTeacher_exact_witness :
    (mockClass1 ∈ teacherClasses teacherAuth initialClassStoreState ↔
      mockClass1 ∈ initialClassStoreState.classes ∧
        mockClass1.teacher_id = teacherJane.id) ∧
    (mockClass1 ∈ (fetchClasses teacherAuth none initialClassStoreState).classes ↔
      mockClass1 ∈ initialClassStoreState.mockClasses ∧
        mockClass1.teacher_id = teacherJane.id) ∧
    (fetchClasses teacherAuth none initialClassStoreState).error = none ∧
    (initialClassStoreState.mockClasses.all
        (fun x => !(x.teacher_id == teacherJane.id)) = true →
      (fetchClasses teacherAuth none initialClassStoreState).classes = []) :=
  listClassesForTeacher_exact teacherJane teacherAuth initialClassStoreState
    mockClass1 rfl rfl rfl

/-- A 101-character title, exceeding the form's maximum of 100. -/
def longTitle : String := String.mk (List.replicate 101 'a')

/-- A create/update payload carrying the overlong title. -/
def longTitleRequest : CourseRequest :=
  { title := longTitle, description := "d", date := "2025-01-01",
    total_marks := 10, difficulty_rating := DifficultyRating.easy }

/-- C7, counterexample: the store's `createCourse` performs no title
validation.  Called by the mock teacher with a 101-character title it
succeeds — it returns the new course (carrying the overlong title), adds
it to the course collection, and reports no error — rather than failing
with a `ValidationError` and adding nothing, as the claim states. -/
theorem createCourse_long_title_succeeds_cex :
    longTitle.length = 101 ∧
    (createCourse teacherAuth longTitleRequest none
        initialCourseStoreState).fst.map (fun c => c.title) = some longTitle ∧
    (createCourse teacherAuth longTitleRequest none
        initialCourseStoreState).snd.mockCourses.length =
      initialCourseStoreState.mockCourses.length + 1 ∧
    (createCourse teacherAuth longTitleRequest none
        initialCourseStoreState).snd.error = none := by
  refine ⟨rfl, rfl, rfl, rfl⟩

/-- C7, amended: the title-length check lives in the course form, not in
the store.  `validateForm` on a non-blank title longer than 100
characters fails validation (blocking submission) with the title error
`Title must be less than 100 characters`, whatever the other fields are;
the store's `createCourse` itself accepts any title (counterexample
above). -/
theorem title_length_validated_in_form (title description date : String)
    (totalMarks : Int) (hne : isBlank title = false) (hlong : title.length > 100) :
    (validateForm title description date totalMarks).fst = false ∧
    (validateForm title description date totalMarks).snd.title =
      "Title must be less than 100 characters" := by
  simp only [validateForm, hne]
  split_ifs <;> simp_all

/-- C7 witness: the amended statement at the concrete 101-character
title. -/
theorem title_length_validated_in_form_witness :
    (validateForm longTitle "d" "2025-01-01" 10).fst = false ∧
    (validateForm longTitle "d" "2025-01-01" 10).snd.title =
      "Title must be less than 100 characters" :=
  title_length_validated_in_form longTitle "d" "2025-01-01" 10
    (by decide) (by decide)

/-- C8 (confirmed): when the acting user is a teacher whose id differs
from the found course's owning-teacher id, `updateCourse` and
`deleteCourse` both fail — returning their failure value with the
ownership error message — and leave the course collection (`mockCourses`
and the `courses` ref) unchanged. -/
theorem updateDelete_notOwner_fails_no_mutation (auth : AuthView) (u : User)
    (courseId : Nat) (data : CourseRequest) (s : CourseStoreState) (crs : Course)
    (hu : auth.user = some u) (hrole : u.role = UserRole.teacher)
    (hfind : s.mockCourses.find? (fun c => c.id == courseId) = some crs)
    (hown : crs.teacher_id ≠ u.id) :
    (updateCourse auth courseId data none s).fst = none ∧
    (updateCourse auth courseId data none s).snd.error =
      some "You can only update your own courses" ∧
    (updateCourse auth courseId data none s).snd.mockCourses = s.mockCourses ∧
    (updateCourse auth courseId data none s).snd.courses = s.courses ∧
    (deleteCourse auth courseId none s).fst = false ∧
    (deleteCourse auth courseId none s).snd.error =
      some "You can only delete your own courses" ∧
    (deleteCourse auth courseId none s).snd.mockCourses = s.mockCourses ∧
    (deleteCourse auth courseId none s).snd.courses = s.courses := by
  have ht : auth.isTeacher = true := by
    simp [AuthView.isTeacher, hu, hrole]
  have hneq : eqSome crs.teacher_id auth.userId = false := by
    simp [eqSome, AuthView.userId, hu, hown]
  refine ⟨?_, ?_, ?_, ?_, ?_, ?_, ?_, ?_⟩ <;>
    simp [updateCourse, deleteCourse, ht, hfind, hneq]

/-- C8 witness: the mock teacher (id 1) can neither update nor delete
course 3, which is owned by teacher 3; the collection is unchanged. -/
theorem updateDelete_notOwner_fails_no_mutation_witness :
    (updateCourse teacherAuth 3 longTitleRequest none initialCourseStoreState).fst =
      none ∧
    (updateCourse teacherAuth 3 longTitleRequest none
        initialCourseStoreState).snd.error =
      some "You can only update your own courses" ∧
    (updateCourse teacherAuth 3 longTitleRequest none
        initialCourseStoreState).snd.mockCourses =
      initialCourseStoreState.mockCourses ∧
    (updateCourse teacherAuth 3 longTitleRequest none
        initialCourseStoreState).snd.courses = initialCourseStoreState.courses ∧
    (deleteCourse teacherAuth 3 none initialCourseStoreState).fst = false ∧
    (deleteCourse teacherAuth 3 none initialCourseStoreState).snd.error =
      some "You can only delete your own courses" ∧
    (deleteCourse teacherAuth 3 none initialCourseStoreState).snd.mockCourses =
      initialCourseStoreState.mockCourses ∧
    (deleteCourse teacherAuth 3 none initialCourseStoreState).snd.courses =
      initialCourseStoreState.courses :=
  updateDelete_notOwner_fails_no_mutation teacherAuth teacherJane 3
    longTitleRequest initialCourseStoreState classMockCourse3 rfl rfl
    (by decide) (by decide)

/-- A class's course set holds no course id twice: the (class, course)
pairs it contributes to the assignment relation are pairwise distinct. -/
def NodupCourseIds (c : ClassWithRelations) : Prop :=
  ((c.courses.getD []).map (fun x => x.id)).Nodup

instance : DecidablePred NodupCourseIds := fun c => by
  unfold NodupCourseIds; infer_instance

/-- The no-duplicate-assignment invariant over the whole class store
state: every class reachable through the backing `mockClasses` relation,
the loaded `classes` list, or `currentClass` has duplicate-free course
ids. -/
def ClassStoreInv (s : ClassStoreState) : Prop :=
  (∀ c ∈ s.mockClasses, NodupCourseIds c) ∧
  (∀ c ∈ s.classes, NodupCourseIds c) ∧
  (∀ c ∈ s.currentClass.toList, NodupCourseIds c)

instance (s : ClassStoreState) : Decidable (ClassStoreInv s) := by
  unfold ClassStoreInv; infer_instance

/-- Appending a course whose id is not yet in the set keeps the ids
duplicate-free. -/
theorem nodup_pushCourse {cls : ClassWithRelations} {crs : Course}
    (hnd : NodupCourseIds cls)
    (hnew : (cls.courses.getD []).any (fun c => c.id == crs.id) = false) :
    NodupCourseIds (pushCourse crs cls) := by
  simp only [NodupCourseIds, pushCourse, Option.getD_some, List.map_append,
    List.nodup_append]
  refine ⟨hnd, List.nodup_singleton _, ?_⟩
  intro a ha hb
  rcases List.mem_map.mp ha with ⟨x, hx, rfl⟩
  have hne := List.any_eq_false.mp hnew x hx
  simp at hb
  simp [hb] at hne

/-- Filtering a course out keeps the ids duplicate-free. -/
theorem nodup_filterOutCourse {cls : ClassWithRelations} (courseId : Nat)
    (hnd : NodupCourseIds cls) : NodupCourseIds (filterOutCourse courseId cls) := by
  simp only [NodupCourseIds, filterOutCourse] at hnd ⊢
  cases hc : cls.courses with
  | none => simp
  | some l =>
    rw [hc] at hnd
    simp only [hc, Option.map_some', Option.getD_some] at hnd ⊢
    exact List.Nodup.sublist ((List.filter_sublist l).map (fun x => x.id)) hnd

/-- C9 (confirmed): the invariant that no (classId, courseId) pair occurs
twice — no class's course set contains a course id twice — holds in the
initial state and is preserved by every class store operation:
`fetchClasses`, `fetchClassById`, `addCourseToClass` (which refuses
duplicates) and `removeCourseFromClass`, on every path including the
caught-exception path. -/
theorem assignment_relation_nodup_invariant (auth : AuthView)
    (op : ClassCourseOperation) (classId : Nat) (fault : Option String)
    (s : ClassStoreState) (h : ClassStoreInv s) :
    ClassStoreInv initialClassStoreState ∧
    ClassStoreInv (fetchClasses auth fault s) ∧
    ClassStoreInv (fetchClassById classId fault s) ∧
    ClassStoreInv (addCourseToClass op fault s).snd ∧
    ClassStoreInv (removeCourseFromClass op fault s).snd := by
  obtain ⟨hm, hc, hcur⟩ := h
  refine ⟨by decide, ?_, ?_, ?_, ?_⟩
  · cases hA : auth.isAuthenticated with
    | false =>
      simp only [fetchClasses, hA, Bool.not_false, if_true]
      exact ⟨hm, hc, hcur⟩
    | true =>
      cases fault with
      | some m =>
        simp only [fetchClasses, hA, Bool.not_true, Bool.false_eq_true, if_false]
        exact ⟨hm, hc, hcur⟩
      | none =>
        cases hT : auth.isTeacher with
        | false =>
          simp only [fetchClasses, hA, hT, Bool.not_true, Bool.false_eq_true,
            if_false]
          exact ⟨hm, fun c hx => hm c (List.mem_filter.mp hx).1, hcur⟩
        | true =>
          simp only [fetchClasses, hA, hT, Bool.not_true, Bool.false_eq_true,
            if_false, if_true]
          exact ⟨hm, fun c hx => hm c (List.mem_filter.mp hx).1, hcur⟩
  · cases fault with
    | some m => exact ⟨hm, hc, hcur⟩
    | none =>
      cases hf : s.mockClasses.find? (fun c => c.id == classId) with
      | none => simp only [fetchClassById, hf]; exact ⟨hm, hc, hcur⟩
      | some found =>
        simp only [fetchClassById, hf]
        refine ⟨hm, hc, ?_⟩
        intro c hx
        simp only [Option.toList_some, List.mem_singleton] at hx
        exact hx ▸ hm found (List.mem_of_find?_eq_some hf)
  · cases fault with
    | some m => exact ⟨hm, hc, hcur⟩
    | none =>
      cases hfc : s.mockClasses.find? (fun c => c.id == op.class_id) with
      | none => simp only [addCourseToClass, hfc]; exact ⟨hm, hc, hcur⟩
      | some cls =>
        cases hfr : classStoreMockCourses.find? (fun c => c.id == op.course_id) with
        | none => simp only [addCourseToClass, hfc, hfr]; exact ⟨hm, hc, hcur⟩
        | some crs =>
          cases hdup : (cls.courses.getD []).any (fun c => c.id == crs.id) with
          | true =>
            simp only [addCourseToClass, hfc, hfr, hdup, if_true]
            exact ⟨hm, hc, hcur⟩
          | false =>
            simp only [addCourseToClass, hfc, hfr, hdup, Bool.false_eq_true,
              if_false]
            have hnd : NodupCourseIds cls := hm cls (List.mem_of_find?_eq_some hfc)
            have hpush : NodupCourseIds (pushCourse crs cls) :=
              nodup_pushCourse hnd hdup
            have hmock : ∀ y ∈ updateFirst (fun c => c.id == op.class_id)
                (pushCourse crs) s.mockClasses, NodupCourseIds y := by
              refine forall_updateFirst _ _ _ hm ?_
              intro x hx
              rw [hfc] at hx
              cases hx
              exact hpush
            refine ⟨hmock, hmock, ?_⟩
            intro c hx
            cases hmatch : currentMatches s.currentClass op.class_id with
            | true =>
              simp only [hmatch, if_true, Option.toList_some,
                List.mem_singleton] at hx
              exact hx ▸ hpush
            | false =>
              simp only [hmatch, Bool.false_eq_true, if_false] at hx
              exact hcur c hx
  · cases fault with
    | some m => exact ⟨hm, hc, hcur⟩
    | none =>
      cases hfc : s.mockClasses.find? (fun c => c.id == op.class_id) with
      | none => simp only [removeCourseFromClass, hfc]; exact ⟨hm, hc, hcur⟩
      | some cls =>
        cases hco : cls.courses with
        | none => simp only [removeCourseFromClass, hfc, hco]; exact ⟨hm, hc, hcur⟩
        | some l =>
          simp only [removeCourseFromClass, hfc, hco]
          have hfilter : NodupCourseIds (filterOutCourse op.course_id cls) :=
            nodup_filterOutCourse op.course_id
              (hm cls (List.mem_of_find?_eq_some hfc))
          have hmock : ∀ y ∈ updateFirst (fun c => c.id == op.class_id)
              (filterOutCourse op.course_id) s.mockClasses, NodupCourseIds y := by
            refine forall_updateFirst _ _ _ hm ?_
            intro x hx
            rw [hfc] at hx
            cases hx
            exact hfilter
          refine ⟨hmock, hmock, ?_⟩
          intro c hx
          cases hmatch : currentMatches s.currentClass op.class_id with
          | true =>
            simp only [hmatch, if_true, Option.toList_some,
              List.mem_singleton] at hx
            exact hx ▸ hfilter
          | false =>
            simp only [hmatch, Bool.false_eq_true, if_false] at hx
            exact hcur c hx

/-- C9 witness: the invariant holds in the initial state and after each
operation applied there (teacher session, pair (1, 2), class 1). -/
theorem assignment_relation_nodup_invariant_witness :
    ClassStoreInv initialClassStoreState ∧
    ClassStoreInv (fetchClasses teacherAuth none initialClassStoreState) ∧
    ClassStoreInv (fetchClassById 1 none initialClassStoreState) ∧
    ClassStoreInv (addCourseToClass ⟨1, 2⟩ none initialClassStoreState).snd ∧
    ClassStoreInv (removeCourseFromClass ⟨1, 2⟩ none initialClassStoreState).snd :=
  assignment_relation_nodup_invariant teacherAuth ⟨1, 2⟩ 1 none
    initialClassStoreState (by decide)

/-- Shared helper: `fetchClasses` never leaves the loading flag set
(the unauthenticated guard path does not touch it). -/
theorem fetchClasses_isLoading_false (auth : AuthView) (fault : Option String)
    (s : ClassStoreState) (hl : s.isLoading = false) :
    (fetchClasses auth fault s).isLoading = false := by
  cases hA : auth.isAuthenticated with
  | false => simpa [fetchClasses, hA] using hl
  | true =>
    cases fault with
    | some m => simp [fetchClasses, hA]
    | none => cases hT : auth.isTeacher <;> simp [fetchClasses, hA, hT]

/-- Shared helper: `fetchClassById` always ends with the loading flag
cleared. -/
theorem fetchClassById_isLoading_false (classId : Nat) (fault : Option String)
    (s : ClassStoreState) : (fetchClassById classId fault s).isLoading = false := by
  cases fault with
  | some m => rfl
  | none =>
    cases hf : s.mockClasses.find? (fun c => c.id == classId) <;>
      simp [fetchClassById, hf]

/-- Shared helper: `addCourseToClass` always ends with the loading flag
cleared. -/
theorem addCourseToClass_isLoading_false (op : ClassCourseOperation)
    (fault : Option String) (s : ClassStoreState) :
    (addCourseToClass op fault s).snd.isLoading = false := by
  cases fault with
  | some m => rfl
  | none =>
    cases hfc : s.mockClasses.find? (fun c => c.id == op.class_id) with
    | none => simp [addCourseToClass, hfc]
    | some cls =>
      cases hfr : classStoreMockCourses.find? (fun c => c.id == op.course_id) with
      | none => simp [addCourseToClass, hfc, hfr]
      | some crs =>
        cases hdup : (cls.courses.getD []).any (fun c => c.id == crs.id) <;>
          simp [addCourseToClass, hfc, hfr, hdup]

/-- Shared helper: `removeCourseFromClass` always ends with the loading
flag cleared. -/
theorem removeCourseFromClass_isLoading_false (op : ClassCourseOperation)
    (fault : Option String) (s : ClassStoreState) :
    (removeCourseFromClass op fault s).snd.isLoading = false := by
  cases fault with
  | some m => rfl
  | none =>
    cases hfc : s.mockClasses.find? (fun c => c.id == op.class_id) with
    | none => simp [removeCourseFromClass, hfc]
    | some cls =>
      cases hco : cls.courses <;> simp [removeCourseFromClass, hfc, hco]

/-- Shared helper: `fetchCourses` never leaves the loading flag set. -/
theorem fetchCourses_isLoading_false (auth : AuthView) (fault : Option String)
    (sc : CourseStoreState) (hl : sc.isLoading = false) :
    (fetchCourses auth fault sc).isLoading = false := by
  cases hA : auth.isAuthenticated with
  | false => simpa [fetchCourses, hA] using hl
  | true =>
    cases fault with
    | some m => simp [fetchCourses, hA]
    | none => cases hT : auth.isTeacher <;> simp [fetchCourses, hA, hT]

/-- Shared helper: `createCourse` never leaves the loading flag set (the
non-teacher guard path does not touch it). -/
theorem createCourse_isLoading_false (auth : AuthView) (data : CourseRequest)
    (fault : Option String) (sc : CourseStoreState) (hl : sc.isLoading = false) :
    (createCourse auth data fault sc).snd.isLoading = false := by
  cases hT : auth.isTeacher with
  | false => simpa [createCourse, hT] using hl
  | true =>
    cases fault with
    | some m => simp [createCourse, hT]
    | none => simp [createCourse, hT]

/-- Shared helper: `updateCourse` never leaves the loading flag set. -/
theorem updateCourse_isLoading_false (auth : AuthView) (courseId : Nat)
    (data : CourseRequest) (fault : Option String) (sc : CourseStoreState)
    (hl : sc.isLoading = false) :
    (updateCourse auth courseId data fault sc).snd.isLoading = false := by
  cases hT : auth.isTeacher with
  | false => simpa [updateCourse, hT] using hl
  | true =>
    cases fault with
    | some m => simp [updateCourse, hT]
    | none =>
      cases hf : sc.mockCourses.find? (fun c => c.id == courseId) with
      | none => simp [updateCourse, hT, hf]
      | some found =>
        cases how : eqSome found.teacher_id auth.userId <;>
          simp [updateCourse, hT, hf, how]

/-- Shared helper: `deleteCourse` never leaves the loading flag set. -/
theorem deleteCourse_isLoading_false (auth : AuthView) (courseId : Nat)
    (fault : Option String) (sc : CourseStoreState) (hl : sc.isLoading = false) :
    (deleteCourse auth courseId fault sc).snd.isLoading = false := by
  cases hT : auth.isTeacher with
  | false => simpa [deleteCourse, hT] using hl
  | true =>
    cases fault with
    | some m => simp [deleteCourse, hT]
    | none =>
      cases hf : sc.mockCourses.find? (fun c => c.id == courseId) with
      | none => simp [deleteCourse, hT, hf]
      | some found =>
        cases how : eqSome found.teacher_id auth.userId <;>
          simp [deleteCourse, hT, hf, how]

/-- The auth store's mock student (`mockUsers[1]`). -/
def studentJohn : User :=
  { id := 2, email := "student@example.com", name := "John Student",
    role := UserRole.student }

/-- An authenticated session of the mock student: it passes the
`isAuthenticated` guards of the fetch operations but fails the
`isTeacher` guards of the course CRUD operations. -/
def studentAuth : AuthView :=
  { user := some studentJohn, isAuthenticated := true }

/-- C10, counterexample: the claim says each operation clears the error
field to null on entry before doing any work, but `fetchClasses` returns
before touching `error` when the session is unauthenticated: with a
stale error message in the store, after the call completes (and its
loading flag is false) the error is still the stale message, not null. -/
theorem fetchClasses_guard_keeps_stale_error_cex :
    (fetchClasses { user := none, isAuthenticated := false } none
        { initialClassStoreState with error := some "previous failure" }).error =
      some "previous failure" ∧
    (fetchClasses { user := none, isAuthenticated := false } none
        { initialClassStoreState with error := some "previous failure" }).isLoading =
      false := ⟨rfl, rfl⟩

/-- C10, amended: every operation completed from a non-loading state
leaves `isLoading` false (on success, returned failure, and
caught-exception paths alike); and every operation that passes its entry
guard behaves as if the error field had been cleared on entry — its
entire result does not depend on the incoming error value (`authA` is
any session passing the `isAuthenticated` guard of the fetch operations,
student or teacher; `authT` any session passing the `isTeacher` guard of
the course CRUD; `fetchClassById`, `addCourseToClass` and
`removeCourseFromClass` have no guard).  The guard-rejected paths are
the exception the original claim missed: an unauthenticated
`fetchClasses`/`fetchCourses` returns with the store untouched (stale
error kept), and the course store's CRUD guards set a guard message
instead of null without entering the loading phase (the state changes
only in its error field). -/
theorem ops_loading_error_discipline (auth authA authT authN authS : AuthView)
    (op : ClassCourseOperation) (classId courseId : Nat) (data : CourseRequest)
    (fault : Option String) (s : ClassStoreState) (sc : CourseStoreState)
    (hl : s.isLoading = false) (hlc : sc.isLoading = false)
    (hA : authA.isAuthenticated = true) (hT : authT.isTeacher = true)
    (hN : authN.isAuthenticated = false) (hS : authS.isTeacher = false) :
    (fetchClasses auth fault s).isLoading = false ∧
    (fetchClassById classId fault s).isLoading = false ∧
    (addCourseToClass op fault s).snd.isLoading = false ∧
    (removeCourseFromClass op fault s).snd.isLoading = false ∧
    (fetchCourses auth fault sc).isLoading = false ∧
    (createCourse auth data fault sc).snd.isLoading = false ∧
    (updateCourse auth courseId data fault sc).snd.isLoading = false ∧
    (deleteCourse auth courseId fault sc).snd.isLoading = false ∧
    fetchClasses authA fault s = fetchClasses authA fault { s with error := none } ∧
    fetchClassById classId fault s =
      fetchClassById classId fault { s with error := none } ∧
    addCourseToClass op fault s =
      addCourseToClass op fault { s with error := none } ∧
    removeCourseFromClass op fault s =
      removeCourseFromClass op fault { s with error := none } ∧
    fetchCourses authA fault sc =
      fetchCourses authA fault { sc with error := none } ∧
    createCourse authT data fault sc =
      createCourse authT data fault { sc with error := none } ∧
    updateCourse authT courseId data fault sc =
      updateCourse authT courseId data fault { sc with error := none } ∧
    deleteCourse authT courseId fault sc =
      deleteCourse authT courseId fault { sc with error := none } ∧
    fetchClasses authN fault s = s ∧
    fetchCourses authN fault sc = sc ∧
    createCourse authS data fault sc =
      (none, { sc with error := some "Only teachers can create courses" }) ∧
    updateCourse authS courseId data fault sc =
      (none, { sc with error := some "Only teachers can update courses" }) ∧
    deleteCourse authS courseId fault sc =
      (false, { sc with error := some "Only teachers can delete courses" }) := by
  refine ⟨fetchClasses_isLoading_false auth fault s hl,
    fetchClassById_isLoading_false classId fault s,
    addCourseToClass_isLoading_false op fault s,
    removeCourseFromClass_isLoading_false op fault s,
    fetchCourses_isLoading_false auth fault sc hlc,
    createCourse_isLoading_false auth data fault sc hlc,
    updateCourse_isLoading_false auth courseId data fault sc hlc,
    deleteCourse_isLoading_false auth courseId fault sc hlc,
    ?_, rfl, rfl, rfl, ?_, ?_, ?_, ?_, ?_, ?_, ?_, ?_, ?_⟩
  · simp only [fetchClasses, hA, Bool.not_true, Bool.false_eq_true, if_false]
  · simp only [fetchCourses, hA, Bool.not_true, Bool.false_eq_true, if_false]
  · simp only [createCourse, hT, Bool.not_true, Bool.false_eq_true, if_false]
  · simp only [updateCourse, hT, Bool.not_true, Bool.false_eq_true, if_false]
  · simp only [deleteCourse, hT, Bool.not_true, Bool.false_eq_true, if_false]
  · simp only [fetchClasses, hN, Bool.not_false, if_true]
  · simp only [fetchCourses, hN, Bool.not_false, if_true]
  · simp only [createCourse, hS, Bool.not_false, if_true]
  · simp only [updateCourse, hS, Bool.not_false, if_true]
  · simp only [deleteCourse, hS, Bool.not_false, if_true]

/-- C10 witness: the discipline instantiated at an unauthenticated
session, the authenticated student session (which passes the fetch
guards and is rejected by the CRUD guards), the teacher session, the
pair (1, 2), class 1, course 1, and initial states carrying a stale
error. -/
theorem ops_loading_error_discipline_witness :
    (fetchClasses { user := none, isAuthenticated := false } none
        { initialClassStoreState with error := some "stale" }).isLoading = false ∧
    (fetchClassById 1 none
        { initialClassStoreState with error := some "stale" }).isLoading = false ∧
    (addCourseToClass ⟨1, 2⟩ none
        { initialClassStoreState with error := some "stale" }).snd.isLoading = false ∧
    (removeCourseFromClass ⟨1, 2⟩ none
        { initialClassStoreState with error := some "stale" }).snd.isLoading = false ∧
    (fetchCourses { user := none, isAuthenticated := false } none
        { initialCourseStoreState with error := some "stale" }).isLoading = false ∧
    (createCourse { user := none, isAuthenticated := false } longTitleRequest none
        { initialCourseStoreState with error := some "stale" }).snd.isLoading = false ∧
    (updateCourse { user := none, isAuthenticated := false } 1 longTitleRequest none
        { initialCourseStoreState with error := some "stale" }).snd.isLoading = false ∧
    (deleteCourse { user := none, isAuthenticated := false } 1 none
        { initialCourseStoreState with error := some "stale" }).snd.isLoading = false ∧
    fetchClasses studentAuth none { initialClassStoreState with error := some "stale" } =
      fetchClasses studentAuth none
        { { initialClassStoreState with error := some "stale" } with error := none } ∧
    fetchClassById 1 none { initialClassStoreState with error := some "stale" } =
      fetchClassById 1 none
        { { initialClassStoreState with error := some "stale" } with error := none } ∧
    addCourseToClass ⟨1, 2⟩ none
        { initialClassStoreState with error := some "stale" } =
      addCourseToClass ⟨1, 2⟩ none
        { { initialClassStoreState with error := some "stale" } with error := none } ∧
    removeCourseFromClass ⟨1, 2⟩ none
        { initialClassStoreState with error := some "stale" } =
      removeCourseFromClass ⟨1, 2⟩ none
        { { initialClassStoreState with error := some "stale" } with error := none } ∧
    fetchCourses studentAuth none
        { initialCourseStoreState with error := some "stale" } =
      fetchCourses studentAuth none
        { { initialCourseStoreState with error := some "stale" } with error := none } ∧
    createCourse teacherAuth longTitleRequest none
        { initialCourseStoreState with error := some "stale" } =
      createCourse teacherAuth longTitleRequest none
        { { initialCourseStoreState with error := some "stale" } with error := none } ∧
    updateCourse teacherAuth 1 longTitleRequest none
        { initialCourseStoreState with error := some "stale" } =
      updateCourse teacherAuth 1 longTitleRequest none
        { { initialCourseStoreState with error := some "stale" } with error := none } ∧
    deleteCourse teacherAuth 1 none
        { initialCourseStoreState with error := some "stale" } =
      deleteCourse teacherAuth 1 none
        { { initialCourseStoreState with error := some "stale" } with error := none } ∧
    fetchClasses { user := none, isAuthenticated := false } none
        { initialClassStoreState with error := some "stale" } =
      { initialClassStoreState with error := some "stale" } ∧
    fetchCourses { user := none, isAuthenticated := false } none
        { initialCourseStoreState with error := some "stale" } =
      { initialCourseStoreState with error := some "stale" } ∧
    createCourse studentAuth longTitleRequest none
        { initialCourseStoreState with error := some "stale" } =
      (none, { { initialCourseStoreState with error := some "stale" } with
        error := some "Only teachers can create courses" }) ∧
    updateCourse studentAuth 1 longTitleRequest none
        { initialCourseStoreState with error := some "stale" } =
      (none, { { initialCourseStoreState with error := some "stale" } with
        error := some "Only teachers can update courses" }) ∧
    deleteCourse studentAuth 1 none
        { initialCourseStoreState with error := some "stale" } =
      (false, { { initialCourseStoreState with error := some "stale" } with
        error := some "Only teachers can delete courses" }) :=
  ops_loading_error_discipline { user := none, isAuthenticated := false }
    studentAuth teacherAuth { user := none, isAuthenticated := false } studentAuth
    ⟨1, 2⟩ 1 1 longTitleRequest none
    { initialClassStoreState with error := some "stale" }
    { initialCourseStoreState with error := some "stale" }
    rfl rfl rfl rfl rfl rfl

end TeacherDashboard
